import Mathlib

/-!
Verification development for `cacaluploader/upload_adapters.py`.

The Python module is shallowly embedded here.  Python strings are modelled as
`List Char`; the stateful adapter objects become record types, and each adapter
method becomes a function from the adapter record (plus an explicit outcome of
the underlying transport call it performs) to an `Except` value.  A raised
Python exception is an `Except.error`; the module's domain errors and the
transport-library exception classes are separate constructors so that
"translated" and "untranslated" exceptions stay distinguishable, and a
translated error carries the original transport exception as its chained
cause (`raise ... from ex`).
-/

/-- Separator token `-|-` shared by all adapters (`CalendarUploadAdapter._separator`). -/
def sepChars : List Char := ['-', '|', '-']

/-- Tests whether the separator token `-|-` stands at the front of the list. -/
def sepLeads : List Char → Bool
  | c1 :: c2 :: c3 :: _ => c1 == '-' && c2 == '|' && c3 == '-'
  | _ => false

/-- Tests whether the separator token `-|-` occurs anywhere in the list. -/
def hasSep : List Char → Bool
  | [] => false
  | c :: rest => sepLeads (c :: rest) || hasSep rest

/-- Tests whether the list ends with the two characters `-|`. -/
def endsWithDashBar : List Char → Bool
  | [] => false
  | [_] => false
  | [c1, c2] => c1 == '-' && c2 == '|'
  | _ :: rest => endsWithDashBar rest

/-- Embedding of Python `raw_id.split('-|-')`: leftmost, non-overlapping
splitting on the three-character separator; `acc` holds the reversed characters
of the chunk currently being read. -/
def splitSepAux : List Char → List Char → List (List Char)
  | acc, c1 :: c2 :: c3 :: rest =>
    if c1 == '-' && c2 == '|' && c3 == '-' then
      acc.reverse :: splitSepAux [] rest
    else
      splitSepAux (c1 :: acc) (c2 :: c3 :: rest)
  | acc, c :: rest => splitSepAux (c :: acc) rest
  | acc, [] => [acc.reverse]

/-- Python `s.split('-|-')`. -/
def pySplit (s : List Char) : List (List Char) := splitSepAux [] s

/-- Embedding of the `extractor` closure inside
`CalDAVUploadAdapter.retrieve_event_ids`: split the event's raw uid on the
separator and, when the split yields a single part, put `None` in front.  The
resulting Python tuple mixes `None` with strings, hence `List (Option _)`. -/
def extractor (raw_id : List Char) : List (Option (List Char)) :=
  let splitted_id := (pySplit raw_id).map some
  if splitted_id.length == 1 then none :: splitted_id else splitted_id

/-- Embedding of the uid computation in `CalDAVUploadAdapter.delete_event`:
`uid = ev_uid`, and when `cal_uid is not None`, `uid = cal_uid + '-|-' + uid`. -/
def pyEncodeUid (cal_uid : Option (List Char)) (ev_uid : List Char) : List Char :=
  match cal_uid with
  | none => ev_uid
  | some c => c ++ sepChars ++ ev_uid

/-- Exception classes of the underlying transport libraries (`caldav.error.*`
for the CalDAV adapter, and arbitrary further transport exceptions, numbered by
`other`, for anything neither adapter's `except` clauses mention). -/
inductive TransportExc
  | authorizationError
  | notFoundError
  | reportError
  | deleteError
  | putError
  | other (code : Nat)
deriving DecidableEq

/-- The four domain error kinds of `cacaluploader.exceptions`. -/
inductive DomainKind
  | connection
  | retrieval
  | upload
  | deletion
deriving DecidableEq

/-- An exception escaping an adapter method: an untranslated transport
exception, a domain error (with the optional chained cause installed by
`raise ... from ex`), or one of Python's builtin errors the code can hit. -/
inductive Exc
  | transport (e : TransportExc)
  | domain (k : DomainKind) (cause : Option TransportExc)
  | typeError
  | nameError
deriving DecidableEq

/-- A remote CalDAV event handle; `uidValue` is `event.instance.vevent.uid.value`. -/
structure CdEvent where
  uidValue : List Char
deriving DecidableEq

/-- The mutable state of a `CalDAVUploadAdapter` instance: the constructor
arguments, the selected calendar (identified by its url) and the cached event
handles. -/
structure CaldavAdapter where
  url : List Char
  username : List Char
  password : List Char
  calendar : Option (List Char)
  events : Option (List CdEvent)
deriving DecidableEq

/-- `CalDAVUploadAdapter.__init__`. -/
def caldavInit (url username password : List Char) : CaldavAdapter :=
  { url := url, username := username, password := password,
    calendar := none, events := none }

/-- `CalDAVUploadAdapter.connect`.  The transport round trip
(`DAVClient`/`Principal`/`principal.calendars()`) is abstracted as
`principalCalendars`, the list of the urls of the visible calendars or a raised
transport exception.  The loop selects the first calendar whose stringified url
equals `self.url`; when none matches the method raises `NotFoundError` inside
its own `try`, so that both it and an `AuthorizationError` from the transport
are translated to `CalendarConnectionError` with the original exception as
cause, while any other transport exception propagates untranslated. -/
def caldavConnect (a : CaldavAdapter)
    (principalCalendars : Except TransportExc (List (List Char))) :
    Except Exc CaldavAdapter :=
  match principalCalendars with
  | Except.ok urls =>
      match urls.find? (fun u => a.url == u) with
      | some u => Except.ok { a with calendar := some u }
      | none =>
          Except.error (Exc.domain DomainKind.connection (some TransportExc.notFoundError))
  | Except.error TransportExc.authorizationError =>
      Except.error (Exc.domain DomainKind.connection (some TransportExc.authorizationError))
  | Except.error TransportExc.notFoundError =>
      Except.error (Exc.domain DomainKind.connection (some TransportExc.notFoundError))
  | Except.error e => Except.error (Exc.transport e)

/-- `CalDAVUploadAdapter.retrieve_event_ids`.  `dateSearch` abstracts
`self.calendar.date_search(start_time, end_time)`.  On success the cached
handle collection `self.events` is replaced wholesale and the decoded ids are
returned; a `ReportError` is translated to `EventRetrievalError`, any other
transport exception propagates untranslated. -/
def caldavRetrieveEventIds (a : CaldavAdapter)
    (dateSearch : Except TransportExc (List CdEvent)) :
    Except Exc (CaldavAdapter × List (List (Option (List Char)))) :=
  match dateSearch with
  | Except.ok evs =>
      Except.ok ({ a with events := some evs }, evs.map (fun e => extractor e.uidValue))
  | Except.error TransportExc.reportError =>
      Except.error (Exc.domain DomainKind.retrieval (some TransportExc.reportError))
  | Except.error e => Except.error (Exc.transport e)

/-- The `for e in event: e.delete()` loop of `CalDAVUploadAdapter.delete_event`:
`outcome` abstracts each handle's `delete()` transport call; the loop stops at
the first raised exception, and on success returns the handles whose deletion
was requested, in order. -/
def runDeletes (outcome : CdEvent → Option TransportExc) :
    List CdEvent → Except TransportExc (List CdEvent)
  | [] => Except.ok []
  | e :: rest =>
      match outcome e with
      | some exc => Except.error exc
      | none =>
          match runDeletes outcome rest with
          | Except.ok l => Except.ok (e :: l)
          | Except.error exc => Except.error exc

/-- `CalDAVUploadAdapter.delete_event`.  Re-encodes the identifier with the
separator scheme, filters the cached handles for an exact uid match and
requests deletion of each match.  When `self.events` is still `None` (no
retrieve has happened), `filter(lambda, self.events)` raises `TypeError`,
which the `except caldav.error.DeleteError` clause does not catch; a
`DeleteError` from a handle's `delete()` is translated to `EventDeletionError`,
any other transport exception propagates untranslated. -/
def caldavDeleteEvent (a : CaldavAdapter) (cal_uid : Option (List Char))
    (ev_uid : List Char) (outcome : CdEvent → Option TransportExc) :
    Except Exc (CaldavAdapter × List CdEvent) :=
  let uid := pyEncodeUid cal_uid ev_uid
  match a.events with
  | none => Except.error Exc.typeError
  | some evs =>
      match runDeletes outcome (evs.filter (fun x => x.uidValue == uid)) with
      | Except.ok deleted => Except.ok (a, deleted)
      | Except.error TransportExc.deleteError =>
          Except.error (Exc.domain DomainKind.deletion (some TransportExc.deleteError))
      | Except.error e => Except.error (Exc.transport e)

/-- Modelled from the spec (section 3, Data Model): the external `Event`
record handed to `add_event`; `cacaluploader/event.py` is not part of the
sources.  The calendar-uid field keeps the source's spelling `calender_uid`
(the attribute `add_event` reads); timestamps are opaque instants, adequate
because `astimezone(utc)` does not change the instant. -/
structure Event where
  calender_uid : Option (List Char)
  uid : List Char
  title : List Char
  location : List Char
  start_time : Int
  end_time : Int

/-- The iCalendar document built by `CalDAVUploadAdapter.add_event` before
submission: uid, summary, location, and start/end (converted to UTC, which
leaves the instant unchanged). -/
structure ICalEvent where
  icalUid : List Char
  summary : List Char
  icalLocation : List Char
  dtstart : Int
  dtend : Int
deriving DecidableEq

/-- `CalDAVUploadAdapter.add_event`.  The uid is the unconditional
concatenation `event.calender_uid + '-|-' + event.uid`; when `calender_uid` is
`None` this `None + str` raises `TypeError` before anything is submitted, and
the `except caldav.error.PutError` clause does not catch it.  `putOutcome`
abstracts `self.calendar.add_event(event_cal.to_ical())`; a `PutError` is
translated to `EventUploadError`, any other transport exception propagates
untranslated.  On success the submitted document is returned alongside the
(unchanged) adapter state. -/
def caldavAddEvent (a : CaldavAdapter) (event : Event)
    (putOutcome : ICalEvent → Option TransportExc) :
    Except Exc (CaldavAdapter × ICalEvent) :=
  match event.calender_uid with
  | none => Except.error Exc.typeError
  | some c =>
      let new_event : ICalEvent :=
        { icalUid := c ++ sepChars ++ event.uid
          summary := event.title
          icalLocation := event.location
          dtstart := event.start_time
          dtend := event.end_time }
      match putOutcome new_event with
      | none => Except.ok (a, new_event)
      | some TransportExc.putError =>
          Except.error (Exc.domain DomainKind.upload (some TransportExc.putError))
      | some e => Except.error (Exc.transport e)

/-- Scan of the lazy regex tail `.*?-->` of `ExchangeUploadAdapter._tag_re`'s
first alternative `<!--.*?-->`, already past the literal `<!--`: at each
position first try the literal `-->`, otherwise consume one character, which
`.` forbids to be a newline.  Returns the remainder after the match, bundled
with a length bound used for the termination of `tagSub`. -/
def findCommentClose : (l : List Char) → Option { r : List Char // r.length < l.length }
  | '-' :: '-' :: '>' :: rest => some ⟨rest, by simp; omega⟩
  | '\n' :: _ => none
  | _ :: rest =>
      (findCommentClose rest).map (fun p => ⟨p.1, Nat.lt_succ_of_lt p.2⟩)
  | [] => none

/-- Scan of the second alternative `<[^>]*>` of `ExchangeUploadAdapter._tag_re`,
already past the `<`: the greedy `[^>]*` cannot cross a `>`, so the alternative
matches exactly up to the first `>`.  Returns the remainder after that `>`,
bundled with a length bound used for the termination of `tagSub`. -/
def findTagClose : (l : List Char) → Option { r : List Char // r.length < l.length }
  | '>' :: rest => some ⟨rest, by simp⟩
  | _ :: rest =>
      (findTagClose rest).map (fun p => ⟨p.1, Nat.lt_succ_of_lt p.2⟩)
  | [] => none

/-- Embedding of `ExchangeUploadAdapter._tag_re.sub('', body)` with
`_tag_re = re.compile(r'(<!--.*?-->|<[^>]*>|\n|\r)')`: scan left to right,
removing each leftmost non-overlapping match and continuing after it.  The
alternatives are tried in order: an HTML comment (whose lazy body cannot cross
a newline, `re.DOTALL` being unset), then a tag, then the line breaks. -/
def tagSub : List Char → List Char
  | [] => []
  | '<' :: '!' :: '-' :: '-' :: rest =>
      match findCommentClose rest with
      | some r => tagSub r.1
      | none =>
          match findTagClose ('!' :: '-' :: '-' :: rest) with
          | some r => tagSub r.1
          | none => '<' :: tagSub ('!' :: '-' :: '-' :: rest)
  | '<' :: rest =>
      match findTagClose rest with
      | some r => tagSub r.1
      | none => '<' :: tagSub rest
  | '\n' :: rest => tagSub rest
  | '\r' :: rest => tagSub rest
  | c :: rest => c :: tagSub rest
termination_by s => s.length
decreasing_by
  all_goals simp
  all_goals first
    | omega
    | exact Nat.lt_trans r.2 (by omega)
    | (have h := r.2; simp at h; omega)

/-- A remote Exchange event; `body` is the event's HTML body field. -/
structure ExEvent where
  body : List Char
deriving DecidableEq

/-- A calendar folder returned by `service.folder().find_folder(parent_id='calendar')`. -/
structure ExFolder where
  display_name : List Char
  id : List Char
deriving DecidableEq

/-- The mutable state of an `ExchangeUploadAdapter` instance.  The selected
calendar is `none` before `connect`, `some none` for the account's default
calendar, and `some (some cid)` for a calendar selected by folder id. -/
structure ExchangeAdapter where
  calendar_name : Option (List Char)
  calendar : Option (Option (List Char))
  events : Option (List ExEvent)
deriving DecidableEq

/-- `ExchangeUploadAdapter.__init__` (the NTLM connection object itself is
owned by the transport and carries no adapter-visible state). -/
def exchangeInit (calendar_id : Option (List Char)) : ExchangeAdapter :=
  { calendar_name := calendar_id, calendar := none, events := none }

/-- `ExchangeUploadAdapter.connect`.  With a configured calendar name the
folder enumeration (abstracted as `findFolder`) is scanned by a loop without a
break, so the LAST folder with a matching display name wins; when none matches
the method raises `CalendarConnectionError` directly (no `from ex`, hence no
cause).  The method has no `try`, so any transport exception propagates
untranslated. -/
def exchangeConnect (a : ExchangeAdapter)
    (findFolder : Except TransportExc (List ExFolder)) : Except Exc ExchangeAdapter :=
  match a.calendar_name with
  | none => Except.ok { a with calendar := some none }
  | some name =>
      match findFolder with
      | Except.error e => Except.error (Exc.transport e)
      | Except.ok folders =>
          match folders.foldl
              (fun acc f => if f.display_name == name then some f.id else acc) none with
          | none => Except.error (Exc.domain DomainKind.connection none)
          | some cid => Except.ok { a with calendar := some (some cid) }

/-- `ExchangeUploadAdapter.retrieve_event_ids`.  `listEvents` abstracts
`self.calendar.list_events(start=…, end=…, details=True).events`.  The cached
collection is replaced and the identifier returned for each event is its
tag-stripped body — a single string, not a decoded pair.  The method has no
`try`, so any transport exception propagates untranslated. -/
def exchangeRetrieveEventIds (a : ExchangeAdapter)
    (listEvents : Except TransportExc (List ExEvent)) :
    Except Exc (ExchangeAdapter × List (List Char)) :=
  match listEvents with
  | Except.error e => Except.error (Exc.transport e)
  | Except.ok evs =>
      Except.ok ({ a with events := some evs }, evs.map (fun x => tagSub x.body))

/-- A Python value a name of `ExchangeUploadAdapter.delete_event`'s scope can
resolve to: a string, `None`, or the adapter object bound to `self`. -/
inductive PyVal
  | str (s : List Char)
  | pyNone
  | selfObj
deriving DecidableEq, BEq

/-- The name `uid`, which the filter lambda of
`ExchangeUploadAdapter.delete_event` reads. -/
def uidName : List Char := ['u', 'i', 'd']

/-- The name `self`. -/
def selfName : List Char := ['s', 'e', 'l', 'f']

/-- The name `cal_uid`. -/
def calUidName : List Char := ['c', 'a', 'l', '_', 'u', 'i', 'd']

/-- The name `ev_uid`. -/
def evUidName : List Char := ['e', 'v', '_', 'u', 'i', 'd']

/-- Name resolution inside `ExchangeUploadAdapter.delete_event`: the method's
scope binds exactly its three parameters `self`, `cal_uid` and `ev_uid`
(no enclosing scope, global or builtin binds `uid`); every other name is
unbound and reading it raises `NameError`. -/
def exchangeDeleteScope (cal_uid : Option (List Char)) (ev_uid : List Char) :
    List Char → Option PyVal :=
  fun n =>
    if n == selfName then some PyVal.selfObj
    else if n == calUidName then
      some (match cal_uid with | some s => PyVal.str s | none => PyVal.pyNone)
    else if n == evUidName then some (PyVal.str ev_uid)
    else none

/-- `ExchangeUploadAdapter.delete_event`.  `filter(lambda, self.events)` first
checks that `self.events` is iterable (`TypeError` when it is still `None`);
the lazy filter object is then drained by the `for` loop, so with a nonempty
cache the lambda body runs and reads the name `uid` through `resolve` — a
`NameError` when the name is unbound, which it is in the method's actual scope
`exchangeDeleteScope`.  With an empty cache the lambda never runs and the call
is a silent no-op.  Were `uid` bound, every cached event whose tag-stripped
body equals its value would be cancelled; the returned list holds the cancelled
events. -/
def exchangeDeleteEvent (a : ExchangeAdapter) (resolve : List Char → Option PyVal) :
    Except Exc (ExchangeAdapter × List ExEvent) :=
  match a.events with
  | none => Except.error Exc.typeError
  | some [] => Except.ok (a, [])
  | some (e :: rest) =>
      match resolve uidName with
      | none => Except.error Exc.nameError
      | some uid =>
          Except.ok (a, (e :: rest).filter (fun x => PyVal.str (tagSub x.body) == uid))

/-- The provider-native event object built by `ExchangeUploadAdapter.add_event`:
subject, start, end, location, and the event uid stored into `html_body`. -/
structure ExNewEvent where
  subject : List Char
  exStart : Int
  exEnd : Int
  exLocation : List Char
  html_body : List Char
deriving DecidableEq

/-- `ExchangeUploadAdapter.add_event`.  `createOutcome` abstracts
`new_event.create()`.  The method has no `try`, so any transport exception
propagates untranslated; on success the created object is returned alongside
the (unchanged) adapter state. -/
def exchangeAddEvent (a : ExchangeAdapter) (event : Event)
    (createOutcome : ExNewEvent → Option TransportExc) :
    Except Exc (ExchangeAdapter × ExNewEvent) :=
  let new_event : ExNewEvent :=
    { subject := event.title
      exStart := event.start_time
      exEnd := event.end_time
      exLocation := event.location
      html_body := event.uid }
  match createOutcome new_event with
  | some e => Except.error (Exc.transport e)
  | none => Except.ok (a, new_event)

/-- A concrete CalDAV adapter used by witnesses. -/
def sampleCaldav : CaldavAdapter := caldavInit ['u'] ['n'] ['p']

/-- A concrete CalDAV adapter whose cache holds one event with uid `x`. -/
def sampleCaldavCached : CaldavAdapter :=
  { caldavInit ['u'] ['n'] ['p'] with events := some [⟨['x']⟩] }

/-- A concrete Event without a calendar uid, used by witnesses. -/
def sampleEventNoCal : Event :=
  { calender_uid := none, uid := ['e'], title := [], location := [],
    start_time := 0, end_time := 0 }

/-- A concrete Event with calendar uid `c`, used by witnesses. -/
def sampleEventWithCal : Event :=
  { calender_uid := some ['c'], uid := ['e'], title := [], location := [],
    start_time := 0, end_time := 0 }

theorem splitSepAux_step (acc : List Char) (c : Char) (rest : List Char)
    (h : sepLeads (c :: rest) = false) :
    splitSepAux acc (c :: rest) = splitSepAux (c :: acc) rest := by
  match rest with
  | [] => rfl
  | [c2] => rfl
  | c2 :: c3 :: r =>
    have h' : (c == '-' && c2 == '|' && c3 == '-') = false := by
      simpa [sepLeads] using h
    simp [splitSepAux, h']

theorem splitSepAux_noSep (s : List Char) (h : hasSep s = false) :
    ∀ acc, splitSepAux acc s = [acc.reverse ++ s] := by
  induction s with
  | nil => intro acc; simp [splitSepAux]
  | cons c rest ih =>
    intro acc
    rw [hasSep] at h
    obtain ⟨h1, h2⟩ := Bool.or_eq_false_iff.mp h
    rw [splitSepAux_step acc c rest h1, ih h2 (c :: acc)]
    simp

theorem splitSepAux_encode (ev : List Char) (hev : hasSep ev = false) :
    ∀ cal : List Char, hasSep (cal ++ ['-']) = false →
      ∀ acc, splitSepAux acc (cal ++ sepChars ++ ev) = [acc.reverse ++ cal, ev] := by
  intro cal
  induction cal with
  | nil =>
    intro _ acc
    have h1 : splitSepAux acc ('-' :: '|' :: '-' :: ev) = acc.reverse :: splitSepAux [] ev := rfl
    rw [show (([] : List Char) ++ sepChars ++ ev) = '-' :: '|' :: '-' :: ev from rfl, h1,
      splitSepAux_noSep ev hev []]
    simp
  | cons c rest ih =>
    intro h acc
    rw [List.cons_append, hasSep] at h
    obtain ⟨hLead, hTail⟩ := Bool.or_eq_false_iff.mp h
    have hstep : sepLeads (c :: (rest ++ sepChars ++ ev)) = false := by
      match rest with
      | [] =>
        have hmid : ('-' == '|') = false := rfl
        simp [sepLeads, sepChars, hmid]
      | [x] =>
        simp only [sepLeads, List.cons_append, List.nil_append, List.append_assoc] at hLead ⊢
        exact hLead
      | x :: y :: r =>
        simp only [sepLeads, List.cons_append, List.append_assoc] at hLead ⊢
        exact hLead
    rw [show ((c :: rest) ++ sepChars ++ ev) = c :: (rest ++ sepChars ++ ev) from rfl,
      splitSepAux_step acc c _ hstep, ih hTail (c :: acc)]
    simp

theorem endsWithDashBar_tail (c : Char) (rest : List Char)
    (h : endsWithDashBar (c :: rest) = false) : endsWithDashBar rest = false := by
  match rest with
  | [] => rfl
  | [x] => rfl
  | x :: y :: r => exact h

theorem hasSep_append_dash (cal : List Char) (h1 : hasSep cal = false)
    (h2 : endsWithDashBar cal = false) : hasSep (cal ++ ['-']) = false := by
  induction cal with
  | nil => rfl
  | cons c rest ih =>
    rw [hasSep] at h1
    obtain ⟨h1a, h1b⟩ := Bool.or_eq_false_iff.mp h1
    have hrec := ih h1b (endsWithDashBar_tail c rest h2)
    rw [List.cons_append, hasSep]
    apply Bool.or_eq_false_iff.mpr
    refine ⟨?_, hrec⟩
    match rest with
    | [] => rfl
    | [x] =>
      have hlast : ('-' == '-') = true := rfl
      simp only [List.cons_append, List.nil_append, sepLeads, hlast, Bool.and_true]
      simpa [endsWithDashBar] using h2
    | x :: y :: r =>
      simp only [sepLeads, List.cons_append, List.append_assoc] at h1a ⊢
      exact h1a

theorem find_first_eq (url : List Char) (urls : List (List Char)) (h : url ∈ urls) :
    urls.find? (fun u => url == u) = some url := by
  induction urls with
  | nil => cases h
  | cons u rest ih =>
    by_cases hequ : url = u
    · subst hequ
      exact List.find?_cons_of_pos _ (by simp)
    · have hmem : url ∈ rest := by
        rcases List.mem_cons.mp h with h' | h'
        · exact absurd h' hequ
        · exact h'
      rw [List.find?_cons_of_neg _ (by simpa using hequ)]
      exact ih hmem

theorem find_none_of_not_mem (url : List Char) (urls : List (List Char)) (h : url ∉ urls) :
    urls.find? (fun u => url == u) = none := by
  rw [List.find?_eq_none]
  intro x hx hbeq
  exact h (eq_of_beq hbeq ▸ hx)

theorem runDeletes_none (outcome : CdEvent → Option TransportExc)
    (h : ∀ e, outcome e = none) : ∀ l, runDeletes outcome l = Except.ok l := by
  intro l
  induction l with
  | nil => rfl
  | cons e rest ih => simp [runDeletes, h e, ih]

theorem exchangeFold_none (n : List Char) :
    ∀ (folders : List ExFolder) (init : Option (List Char)),
      (∀ f ∈ folders, ¬ f.display_name = n) →
      folders.foldl (fun acc f => if f.display_name == n then some f.id else acc) init
        = init := by
  intro folders
  induction folders with
  | nil => intro init _; rfl
  | cons f rest ih =>
    intro init h
    have hf : (f.display_name == n) = false := by
      simpa using h f (List.mem_cons_self f rest)
    rw [List.foldl_cons, if_neg (by simp [hf])]
    exact ih init (fun g hg => h g (List.mem_cons_of_mem f hg))

theorem caldavDelete_noMatch_aux (a : CaldavAdapter) (evs : List CdEvent)
    (cal_uid : Option (List Char)) (ev_uid : List Char)
    (outcome : CdEvent → Option TransportExc) (he : a.events = some evs)
    (hnm : ∀ e ∈ evs, ¬ e.uidValue = pyEncodeUid cal_uid ev_uid) :
    caldavDeleteEvent a cal_uid ev_uid outcome = Except.ok (a, []) := by
  have hfil : evs.filter (fun x => x.uidValue == pyEncodeUid cal_uid ev_uid) = [] := by
    rw [List.filter_eq_nil_iff]
    intro e hm
    simpa using hnm e hm
  simp [caldavDeleteEvent, he, hfil, runDeletes]

/-- C1 (counterexample): the round trip fails for `cal_uid = "-|"` and
`ev_uid = "a"`, although neither string contains the separator token `-|-`:
the encoding `-|` + `-|-` + `a` = `-|-|-a` has its leftmost separator
occurrence at position 0, so the decode of `CalDAVUploadAdapter.
retrieve_event_ids`'s extractor yields `("", "|-a")`, not `("-|", "a")`. -/
theorem composite_id_roundtrip_counterexample :
    hasSep ['-', '|'] = false ∧ hasSep ['a'] = false ∧
      extractor (pyEncodeUid (some ['-', '|']) ['a']) ≠ [some ['-', '|'], some ['a']] ∧
      extractor (pyEncodeUid (some ['-', '|']) ['a']) = [some [], some ['|', '-', 'a']] := by
  decide

/-- C1 (amended): for every pair `(cal_uid, ev_uid)` such that neither string
contains the separator token `-|-` and `cal_uid` does not end with the two
characters `-|`, decoding (splitting on the separator, as
`CalDAVUploadAdapter.retrieve_event_ids`'s extractor does) the encoding
(concatenation with the separator, as `CalDAVUploadAdapter.delete_event` does)
yields exactly `(cal_uid, ev_uid)`; and for every separator-free `ev_uid` with
`cal_uid` absent, decoding the bare `ev_uid` yields `(None, ev_uid)`. -/
theorem composite_id_roundtrip_amended (cal_uid ev_uid : List Char)
    (h1 : hasSep cal_uid = false) (h2 : endsWithDashBar cal_uid = false)
    (h3 : hasSep ev_uid = false) :
    extractor (pyEncodeUid (some cal_uid) ev_uid) = [some cal_uid, some ev_uid] ∧
      extractor ev_uid = [none, some ev_uid] := by
  constructor
  · have hd := hasSep_append_dash cal_uid h1 h2
    have hsplit := splitSepAux_encode ev_uid h3 cal_uid hd []
    simp only [extractor, pySplit, pyEncodeUid, hsplit]
    simp
  · have hsplit := splitSepAux_noSep ev_uid h3 []
    simp only [extractor, pySplit, hsplit]
    simp

/-- C1 (witness): the amended round trip at `cal_uid = "c"`, `ev_uid = "e"`. -/
theorem composite_id_roundtrip_amended_witness :
    extractor (pyEncodeUid (some ['c']) ['e']) = [some ['c'], some ['e']] ∧
      extractor ['e'] = [none, some ['e']] :=
  composite_id_roundtrip_amended ['c'] ['e'] (by decide) (by decide) (by decide)

/-- C2 (code behaviour at the failing input): under the actual name-resolution
environment of `ExchangeUploadAdapter.delete_event` — which binds only `self`,
`cal_uid` and `ev_uid` — any call made while the cached collection is nonempty
raises `NameError` for the undefined name `uid`; it does not filter the cache
by an identifier derived from the method's parameters. -/
theorem exchange_delete_event_name_error (calendar_name : Option (List Char))
    (calendar : Option (Option (List Char))) (e : ExEvent) (rest : List ExEvent)
    (cal_uid : Option (List Char)) (ev_uid : List Char) :
    exchangeDeleteEvent
        { calendar_name := calendar_name, calendar := calendar, events := some (e :: rest) }
        (exchangeDeleteScope cal_uid ev_uid)
      = Except.error Exc.nameError := rfl

/-- C3 (counterexample): a transport exception raised during
`ExchangeUploadAdapter.retrieve_event_ids` is not re-raised as the retrieval
domain error: the method has no `try`, so the transport exception escapes
unchanged. -/
theorem error_translation_counterexample :
    exchangeRetrieveEventIds (exchangeInit none) (Except.error (TransportExc.other 0))
        = Except.error (Exc.transport (TransportExc.other 0))
    ∧ ∀ cause, Exc.transport (TransportExc.other 0) ≠ Exc.domain DomainKind.retrieval cause :=
  ⟨rfl, fun _ h => Exc.noConfusion h⟩

/-- C3 (amended): only the CalDAV adapter translates transport exceptions, and
only the types its `except` clauses list (connect: AuthorizationError and
NotFoundError; retrieve_event_ids: ReportError; delete_event: DeleteError;
add_event: PutError), each re-raised as the corresponding domain error with
the original exception preserved as chained cause; any other transport
exception propagates unchanged through every CalDAV method (shown for
connect, retrieve_event_ids, delete_event and add_event), and no
ExchangeUploadAdapter method performs any translation at all: its
retrieve_event_ids, connect and add_event let transport exceptions escape
unchanged, while its connect raises the connection domain error itself —
directly and without a chained cause — exactly when a calendar name is
configured and no folder's display name matches (a configured name whose
last matching folder exists binds that folder's id, and an absent name binds
the default calendar, both without error). -/
theorem error_translation_amended :
    (∀ a : CaldavAdapter,
        caldavConnect a (Except.error TransportExc.authorizationError)
          = Except.error (Exc.domain DomainKind.connection (some TransportExc.authorizationError)))
    ∧ (∀ a : CaldavAdapter,
        caldavConnect a (Except.error TransportExc.notFoundError)
          = Except.error (Exc.domain DomainKind.connection (some TransportExc.notFoundError)))
    ∧ (∀ (a : CaldavAdapter) (n : Nat),
        caldavConnect a (Except.error (TransportExc.other n))
          = Except.error (Exc.transport (TransportExc.other n)))
    ∧ (∀ a : CaldavAdapter,
        caldavRetrieveEventIds a (Except.error TransportExc.reportError)
          = Except.error (Exc.domain DomainKind.retrieval (some TransportExc.reportError)))
    ∧ (∀ (a : CaldavAdapter) (n : Nat),
        caldavRetrieveEventIds a (Except.error (TransportExc.other n))
          = Except.error (Exc.transport (TransportExc.other n)))
    ∧ (∀ (a : CaldavAdapter) (cal_uid : Option (List Char)) (ev_uid : List Char)
          (outcome : CdEvent → Option TransportExc) (evs : List CdEvent)
          (e : CdEvent) (rest : List CdEvent),
        a.events = some evs →
        evs.filter (fun x => x.uidValue == pyEncodeUid cal_uid ev_uid) = e :: rest →
        outcome e = some TransportExc.deleteError →
        caldavDeleteEvent a cal_uid ev_uid outcome
          = Except.error (Exc.domain DomainKind.deletion (some TransportExc.deleteError)))
    ∧ (∀ (a : CaldavAdapter) (event : Event) (c : List Char),
        event.calender_uid = some c →
        caldavAddEvent a event (fun _ => some TransportExc.putError)
          = Except.error (Exc.domain DomainKind.upload (some TransportExc.putError)))
    ∧ (∀ (a : ExchangeAdapter) (e : TransportExc),
        exchangeRetrieveEventIds a (Except.error e) = Except.error (Exc.transport e))
    ∧ (∀ (cal : Option (Option (List Char))) (evc : Option (List ExEvent))
          (n : List Char) (e : TransportExc),
        exchangeConnect { calendar_name := some n, calendar := cal, events := evc }
            (Except.error e)
          = Except.error (Exc.transport e))
    ∧ (∀ (a : ExchangeAdapter) (event : Event) (e : TransportExc),
        exchangeAddEvent a event (fun _ => some e) = Except.error (Exc.transport e))
    ∧ (∀ (a : CaldavAdapter) (cal_uid : Option (List Char)) (ev_uid : List Char)
          (outcome : CdEvent → Option TransportExc) (evs : List CdEvent)
          (e : CdEvent) (rest : List CdEvent) (n : Nat),
        a.events = some evs →
        evs.filter (fun x => x.uidValue == pyEncodeUid cal_uid ev_uid) = e :: rest →
        outcome e = some (TransportExc.other n) →
        caldavDeleteEvent a cal_uid ev_uid outcome
          = Except.error (Exc.transport (TransportExc.other n)))
    ∧ (∀ (a : CaldavAdapter) (event : Event) (c : List Char) (n : Nat),
        event.calender_uid = some c →
        caldavAddEvent a event (fun _ => some (TransportExc.other n))
          = Except.error (Exc.transport (TransportExc.other n)))
    ∧ (∀ (cal : Option (Option (List Char))) (evc : Option (List ExEvent))
          (n : List Char) (folders : List ExFolder),
        (∀ f ∈ folders, ¬ f.display_name = n) →
        exchangeConnect { calendar_name := some n, calendar := cal, events := evc }
            (Except.ok folders)
          = Except.error (Exc.domain DomainKind.connection none))
    ∧ (∀ (cal : Option (Option (List Char))) (evc : Option (List ExEvent))
          (ff : Except TransportExc (List ExFolder)),
        exchangeConnect { calendar_name := none, calendar := cal, events := evc } ff
          = Except.ok { calendar_name := none, calendar := some none, events := evc })
    ∧ (∀ (cal : Option (Option (List Char))) (evc : Option (List ExEvent))
          (n : List Char) (l1 : List ExFolder) (f : ExFolder) (l2 : List ExFolder),
        f.display_name = n →
        (∀ g ∈ l2, ¬ g.display_name = n) →
        exchangeConnect { calendar_name := some n, calendar := cal, events := evc }
            (Except.ok (l1 ++ f :: l2))
          = Except.ok
              { calendar_name := some n, calendar := some (some f.id), events := evc }) := by
  refine ⟨fun a => rfl, fun a => rfl, fun a n => rfl, fun a => rfl, fun a n => rfl,
    ?_, ?_, fun a e => rfl, fun cal evc n e => rfl, fun a event e => rfl,
    ?_, ?_, ?_, fun cal evc ff => rfl, ?_⟩
  · intro a cal_uid ev_uid outcome evs e rest he hfil hoc
    simp only [caldavDeleteEvent, he]
    rw [hfil]
    simp [runDeletes, hoc]
  · intro a event c hc
    simp [caldavAddEvent, hc]
  · intro a cal_uid ev_uid outcome evs e rest n he hfil hoc
    simp only [caldavDeleteEvent, he]
    rw [hfil]
    simp [runDeletes, hoc]
  · intro a event c n hc
    simp [caldavAddEvent, hc]
  · intro cal evc n folders h
    simp only [exchangeConnect]
    rw [exchangeFold_none n folders none h]
  · intro cal evc n l1 f l2 hf hl2
    simp only [exchangeConnect]
    rw [List.foldl_append, List.foldl_cons, if_pos (by simp [hf]),
      exchangeFold_none n l2 (some f.id) hl2]

/-- C3 (witness): the amended translation policy at concrete inputs. -/
theorem error_translation_amended_witness :
    caldavConnect sampleCaldav (Except.error TransportExc.authorizationError)
        = Except.error (Exc.domain DomainKind.connection (some TransportExc.authorizationError))
    ∧ caldavConnect sampleCaldav (Except.error TransportExc.notFoundError)
        = Except.error (Exc.domain DomainKind.connection (some TransportExc.notFoundError))
    ∧ caldavConnect sampleCaldav (Except.error (TransportExc.other 0))
        = Except.error (Exc.transport (TransportExc.other 0))
    ∧ caldavRetrieveEventIds sampleCaldav (Except.error TransportExc.reportError)
        = Except.error (Exc.domain DomainKind.retrieval (some TransportExc.reportError))
    ∧ caldavRetrieveEventIds sampleCaldav (Except.error (TransportExc.other 0))
        = Except.error (Exc.transport (TransportExc.other 0))
    ∧ caldavDeleteEvent sampleCaldavCached none ['x'] (fun _ => some TransportExc.deleteError)
        = Except.error (Exc.domain DomainKind.deletion (some TransportExc.deleteError))
    ∧ caldavAddEvent sampleCaldav sampleEventWithCal (fun _ => some TransportExc.putError)
        = Except.error (Exc.domain DomainKind.upload (some TransportExc.putError))
    ∧ exchangeRetrieveEventIds (exchangeInit none) (Except.error (TransportExc.other 1))
        = Except.error (Exc.transport (TransportExc.other 1))
    ∧ exchangeConnect { calendar_name := some ['n'], calendar := none, events := none }
          (Except.error (TransportExc.other 1))
        = Except.error (Exc.transport (TransportExc.other 1))
    ∧ exchangeAddEvent (exchangeInit none) sampleEventNoCal (fun _ => some (TransportExc.other 1))
        = Except.error (Exc.transport (TransportExc.other 1))
    ∧ caldavDeleteEvent sampleCaldavCached none ['x'] (fun _ => some (TransportExc.other 2))
        = Except.error (Exc.transport (TransportExc.other 2))
    ∧ caldavAddEvent sampleCaldav sampleEventWithCal (fun _ => some (TransportExc.other 2))
        = Except.error (Exc.transport (TransportExc.other 2))
    ∧ exchangeConnect { calendar_name := some ['n'], calendar := none, events := none }
          (Except.ok [⟨['m'], ['i']⟩])
        = Except.error (Exc.domain DomainKind.connection none)
    ∧ exchangeConnect { calendar_name := none, calendar := none, events := none }
          (Except.ok [])
        = Except.ok { calendar_name := none, calendar := some none, events := none }
    ∧ exchangeConnect { calendar_name := some ['n'], calendar := none, events := none }
          (Except.ok [⟨['n'], ['i']⟩])
        = Except.ok
            { calendar_name := some ['n'], calendar := some (some ['i']), events := none } := by
  obtain ⟨h1, h2, h3, h4, h5, h6, h7, h8, h9, h10, h11, h12, h13, h14, h15⟩ :=
    error_translation_amended
  exact ⟨h1 sampleCaldav,
    h2 sampleCaldav,
    h3 sampleCaldav 0,
    h4 sampleCaldav,
    h5 sampleCaldav 0,
    h6 sampleCaldavCached none ['x'] (fun _ => some TransportExc.deleteError)
      [⟨['x']⟩] ⟨['x']⟩ [] rfl (by decide) rfl,
    h7 sampleCaldav sampleEventWithCal ['c'] rfl,
    h8 (exchangeInit none) (TransportExc.other 1),
    h9 none none ['n'] (TransportExc.other 1),
    h10 (exchangeInit none) sampleEventNoCal (TransportExc.other 1),
    h11 sampleCaldavCached none ['x'] (fun _ => some (TransportExc.other 2))
      [⟨['x']⟩] ⟨['x']⟩ [] 2 rfl (by decide) rfl,
    h12 sampleCaldav sampleEventWithCal ['c'] 2 rfl,
    h13 none none ['n'] [⟨['m'], ['i']⟩] (by decide),
    h14 none none (Except.ok []),
    h15 none none ['n'] [] ⟨['n'], ['i']⟩ [] rfl (by simp)⟩

/-- C4: a successful `ExchangeUploadAdapter.retrieve_event_ids` returns, for
each remote event in the window and in order, the single string obtained from
that event's body by the fixed pattern `_tag_re` (removing HTML tags, HTML
comments and line-break characters) — not a `(cal_uid, ev_uid)` pair of the
composite encoding scheme — and caches the event handles. -/
theorem exchange_retrieve_cleaned_bodies (a : ExchangeAdapter) (evs : List ExEvent) :
    exchangeRetrieveEventIds a (Except.ok evs)
      = Except.ok ({ a with events := some evs }, evs.map (fun x => tagSub x.body)) := rfl

/-- C5: `CalDAVUploadAdapter.connect` selects the calendar whose address is
exactly string-equal to the configured url (so the selected calendar's address
IS `self.url`, with no normalization), raises `CalendarConnectionError` when no
visible calendar's address matches, and raises `CalendarConnectionError` —
not the transport-native exception — when authentication fails. -/
theorem caldav_connect_exact_match :
    (∀ (a : CaldavAdapter) (urls : List (List Char)), a.url ∈ urls →
        caldavConnect a (Except.ok urls) = Except.ok { a with calendar := some a.url })
    ∧ (∀ (a : CaldavAdapter) (urls : List (List Char)), a.url ∉ urls →
        caldavConnect a (Except.ok urls)
          = Except.error (Exc.domain DomainKind.connection (some TransportExc.notFoundError)))
    ∧ (∀ a : CaldavAdapter,
        caldavConnect a (Except.error TransportExc.authorizationError)
          = Except.error (Exc.domain DomainKind.connection (some TransportExc.authorizationError))) := by
  refine ⟨?_, ?_, fun a => rfl⟩
  · intro a urls h
    simp [caldavConnect, find_first_eq a.url urls h]
  · intro a urls h
    simp [caldavConnect, find_none_of_not_mem a.url urls h]

/-- C5 (witness): with configured address `u`, a listing containing `u` is
selected; a listing containing only `u/` (trailing slash) is not matched and
yields the connection domain error, as does an authentication failure. -/
theorem caldav_connect_exact_match_witness :
    caldavConnect sampleCaldav (Except.ok [['u']])
        = Except.ok { sampleCaldav with calendar := some ['u'] }
    ∧ caldavConnect sampleCaldav (Except.ok [['u', '/']])
        = Except.error (Exc.domain DomainKind.connection (some TransportExc.notFoundError))
    ∧ caldavConnect sampleCaldav (Except.error TransportExc.authorizationError)
        = Except.error (Exc.domain DomainKind.connection (some TransportExc.authorizationError)) :=
  ⟨caldav_connect_exact_match.1 sampleCaldav [['u']] (by decide),
   caldav_connect_exact_match.2.1 sampleCaldav [['u', '/']] (by decide),
   caldav_connect_exact_match.2.2 sampleCaldav⟩

/-- C6: a `CalDAVUploadAdapter.delete_event` call whose re-encoded identifier
matches no cached handle returns without error and issues zero delete
requests. -/
theorem caldav_delete_no_match (a : CaldavAdapter) (evs : List CdEvent)
    (cal_uid : Option (List Char)) (ev_uid : List Char)
    (outcome : CdEvent → Option TransportExc) (he : a.events = some evs)
    (hnm : ∀ e ∈ evs, ¬ e.uidValue = pyEncodeUid cal_uid ev_uid) :
    caldavDeleteEvent a cal_uid ev_uid outcome = Except.ok (a, []) :=
  caldavDelete_noMatch_aux a evs cal_uid ev_uid outcome he hnm

/-- C6 (witness): deleting `(None, "e")` from a cache holding only uid `x`
is a no-op. -/
theorem caldav_delete_no_match_witness :
    caldavDeleteEvent sampleCaldavCached none ['e'] (fun _ => none)
      = Except.ok (sampleCaldavCached, []) :=
  caldav_delete_no_match sampleCaldavCached [⟨['x']⟩] none ['e'] (fun _ => none)
    rfl (by decide)

/-- C7: a `CalDAVUploadAdapter.delete_event` call whose re-encoded identifier
exactly matches the native identifier of two cached handles issues a delete
request for both (and only those), in cache order. -/
theorem caldav_delete_duplicates (a : CaldavAdapter) (l1 l2 l3 : List CdEvent)
    (e1 e2 : CdEvent) (cal_uid : Option (List Char)) (ev_uid : List Char)
    (outcome : CdEvent → Option TransportExc)
    (he : a.events = some (l1 ++ (e1 :: (l2 ++ (e2 :: l3)))))
    (h1 : e1.uidValue = pyEncodeUid cal_uid ev_uid)
    (h2 : e2.uidValue = pyEncodeUid cal_uid ev_uid)
    (hno1 : ∀ e ∈ l1, ¬ e.uidValue = pyEncodeUid cal_uid ev_uid)
    (hno2 : ∀ e ∈ l2, ¬ e.uidValue = pyEncodeUid cal_uid ev_uid)
    (hno3 : ∀ e ∈ l3, ¬ e.uidValue = pyEncodeUid cal_uid ev_uid)
    (hok : ∀ e, outcome e = none) :
    caldavDeleteEvent a cal_uid ev_uid outcome = Except.ok (a, [e1, e2]) := by
  have hf1 : l1.filter (fun x => x.uidValue == pyEncodeUid cal_uid ev_uid) = [] := by
    rw [List.filter_eq_nil_iff]
    intro e hm
    simpa using hno1 e hm
  have hf2 : l2.filter (fun x => x.uidValue == pyEncodeUid cal_uid ev_uid) = [] := by
    rw [List.filter_eq_nil_iff]
    intro e hm
    simpa using hno2 e hm
  have hf3 : l3.filter (fun x => x.uidValue == pyEncodeUid cal_uid ev_uid) = [] := by
    rw [List.filter_eq_nil_iff]
    intro e hm
    simpa using hno3 e hm
  have hpos1 : (fun x => x.uidValue == pyEncodeUid cal_uid ev_uid) e1 = true := by
    simp [h1]
  have hpos2 : (fun x => x.uidValue == pyEncodeUid cal_uid ev_uid) e2 = true := by
    simp [h2]
  have hfil : (l1 ++ (e1 :: (l2 ++ (e2 :: l3)))).filter
      (fun x => x.uidValue == pyEncodeUid cal_uid ev_uid) = [e1, e2] := by
    rw [List.filter_append, hf1, List.nil_append,
      @List.filter_cons_of_pos _ (fun x => x.uidValue == pyEncodeUid cal_uid ev_uid)
        e1 (l2 ++ (e2 :: l3)) hpos1,
      List.filter_append, hf2, List.nil_append,
      @List.filter_cons_of_pos _ (fun x => x.uidValue == pyEncodeUid cal_uid ev_uid)
        e2 l3 hpos2, hf3]
  simp [caldavDeleteEvent, he, hfil, runDeletes_none outcome hok]

/-- C7 (witness): two cached handles with the duplicate uid `e` are both
deleted. -/
theorem caldav_delete_duplicates_witness :
    caldavDeleteEvent
        { caldavInit ['u'] ['n'] ['p'] with events := some [⟨['e']⟩, ⟨['x']⟩, ⟨['e']⟩] }
        none ['e'] (fun _ => none)
      = Except.ok
          ({ caldavInit ['u'] ['n'] ['p'] with events := some [⟨['e']⟩, ⟨['x']⟩, ⟨['e']⟩] },
            [⟨['e']⟩, ⟨['e']⟩]) :=
  caldav_delete_duplicates
    { caldavInit ['u'] ['n'] ['p'] with events := some [⟨['e']⟩, ⟨['x']⟩, ⟨['e']⟩] }
    [] [⟨['x']⟩] [] ⟨['e']⟩ ⟨['e']⟩ none ['e'] (fun _ => none)
    rfl rfl rfl (by decide) (by decide) (by decide) (fun _ => rfl)

/-- C8: each successful `CalDAVUploadAdapter.retrieve_event_ids` replaces the
cached handle collection wholesale with the handles backing its result, and
the result is positionally aligned with the cache (the i-th cached handle
decodes to the i-th returned identifier); no other adapter operation mutates
the cache: `delete_event` and `add_event` leave the whole adapter state
unchanged and `connect` leaves the cached collection unchanged. -/
theorem caldav_cache_frame :
    (∀ (a : CaldavAdapter) (evs : List CdEvent),
        caldavRetrieveEventIds a (Except.ok evs)
          = Except.ok ({ a with events := some evs },
              evs.map (fun e => extractor e.uidValue)))
    ∧ (∀ (evs : List CdEvent) (i : Nat) (h1 : i < evs.length)
          (h2 : i < (evs.map (fun e => extractor e.uidValue)).length),
        (evs.map (fun e => extractor e.uidValue))[i] = extractor evs[i].uidValue)
    ∧ (∀ (a : CaldavAdapter) (cal_uid : Option (List Char)) (ev_uid : List Char)
          (outcome : CdEvent → Option TransportExc) (p : CaldavAdapter × List CdEvent),
        caldavDeleteEvent a cal_uid ev_uid outcome = Except.ok p → p.1 = a)
    ∧ (∀ (a : CaldavAdapter) (tr : Except TransportExc (List (List Char)))
          (a2 : CaldavAdapter),
        caldavConnect a tr = Except.ok a2 → a2.events = a.events)
    ∧ (∀ (a : CaldavAdapter) (event : Event) (po : ICalEvent → Option TransportExc)
          (p : CaldavAdapter × ICalEvent),
        caldavAddEvent a event po = Except.ok p → p.1 = a) := by
  refine ⟨fun a evs => rfl, ?_, ?_, ?_, ?_⟩
  · intro evs i h1 h2
    simp
  · intro a cal_uid ev_uid outcome p h
    simp only [caldavDeleteEvent] at h
    split at h
    · exact Except.noConfusion h
    · split at h
      · injection h with h'
        rw [← h']
      · exact Except.noConfusion h
      · exact Except.noConfusion h
  · intro a tr a2 h
    simp only [caldavConnect] at h
    split at h
    · split at h
      · injection h with h'
        rw [← h']
      · exact Except.noConfusion h
    · exact Except.noConfusion h
    · exact Except.noConfusion h
    · exact Except.noConfusion h
  · intro a event po p h
    simp only [caldavAddEvent] at h
    split at h
    · exact Except.noConfusion h
    · split at h
      · injection h with h'
        rw [← h']
      · exact Except.noConfusion h
      · exact Except.noConfusion h

/-- C8 (witness): the frame condition at concrete inputs. -/
theorem caldav_cache_frame_witness :
    caldavRetrieveEventIds sampleCaldav (Except.ok [⟨['a']⟩])
        = Except.ok ({ sampleCaldav with events := some [⟨['a']⟩] }, [[none, some ['a']]])
    ∧ ([(⟨['a']⟩ : CdEvent)].map (fun e => extractor e.uidValue))[0]
        = extractor (⟨['a']⟩ : CdEvent).uidValue
    ∧ ((sampleCaldavCached, ([] : List CdEvent)).1 = sampleCaldavCached)
    ∧ ({ sampleCaldav with calendar := some ['u'] } : CaldavAdapter).events
        = sampleCaldav.events
    ∧ ((sampleCaldav,
          (⟨['c', '-', '|', '-', 'e'], [], [], 0, 0⟩ : ICalEvent)).1 = sampleCaldav) :=
  ⟨caldav_cache_frame.1 sampleCaldav [⟨['a']⟩],
   caldav_cache_frame.2.1 [⟨['a']⟩] 0 (by decide) (by decide),
   caldav_cache_frame.2.2.1 sampleCaldavCached none ['q'] (fun _ => none)
     (sampleCaldavCached, []) rfl,
   caldav_cache_frame.2.2.2.1 sampleCaldav (Except.ok [['u']])
     { sampleCaldav with calendar := some ['u'] } rfl,
   caldav_cache_frame.2.2.2.2 sampleCaldav sampleEventWithCal (fun _ => none)
     (sampleCaldav, ⟨['c', '-', '|', '-', 'e'], [], [], 0, 0⟩) rfl⟩

/-- C9: calling `CalDAVUploadAdapter.delete_event` on a freshly constructed
adapter (cached collection still `None`) raises `TypeError` — not
`EventDeletionError` — while the documented zero-match no-op behaviour does
hold once a retrieve has populated the cache. -/
theorem caldav_delete_before_retrieve :
    (∀ (url username password : List Char) (cal_uid : Option (List Char))
        (ev_uid : List Char) (outcome : CdEvent → Option TransportExc),
        caldavDeleteEvent (caldavInit url username password) cal_uid ev_uid outcome
          = Except.error Exc.typeError)
    ∧ (∀ cause, Exc.typeError ≠ Exc.domain DomainKind.deletion cause)
    ∧ (∀ (a : CaldavAdapter) (evs : List CdEvent) (cal_uid : Option (List Char))
          (ev_uid : List Char) (outcome : CdEvent → Option TransportExc),
        a.events = some evs →
        (∀ e ∈ evs, ¬ e.uidValue = pyEncodeUid cal_uid ev_uid) →
        caldavDeleteEvent a cal_uid ev_uid outcome = Except.ok (a, [])) :=
  ⟨fun _ _ _ _ _ _ => rfl,
   fun _ h => Exc.noConfusion h,
   fun a evs cal_uid ev_uid outcome he hnm =>
     caldavDelete_noMatch_aux a evs cal_uid ev_uid outcome he hnm⟩

/-- C9 (witness): the pre-retrieve TypeError and the post-retrieve no-op at
concrete inputs. -/
theorem caldav_delete_before_retrieve_witness :
    caldavDeleteEvent (caldavInit ['u'] ['n'] ['p']) none ['e'] (fun _ => none)
        = Except.error Exc.typeError
    ∧ Exc.typeError ≠ Exc.domain DomainKind.deletion none
    ∧ caldavDeleteEvent sampleCaldavCached (some ['c']) ['e'] (fun _ => none)
        = Except.ok (sampleCaldavCached, []) :=
  ⟨caldav_delete_before_retrieve.1 ['u'] ['n'] ['p'] none ['e'] (fun _ => none),
   caldav_delete_before_retrieve.2.1 none,
   caldav_delete_before_retrieve.2.2 sampleCaldavCached [⟨['x']⟩] (some ['c']) ['e']
     (fun _ => none) rfl (by decide)⟩

/-- C10: `CalDAVUploadAdapter.add_event` concatenates
`event.calender_uid + '-|-' + event.uid` unconditionally, so an Event whose
calendar uid is absent makes the call raise `TypeError`, which the PutError
handler does not catch — the escaping exception is not the upload domain
error. -/
theorem caldav_add_event_no_caluid (a : CaldavAdapter) (event : Event)
    (putOutcome : ICalEvent → Option TransportExc) (h : event.calender_uid = none) :
    caldavAddEvent a event putOutcome = Except.error Exc.typeError
    ∧ ∀ cause, Exc.typeError ≠ Exc.domain DomainKind.upload cause := by
  refine ⟨?_, fun _ hc => Exc.noConfusion hc⟩
  simp [caldavAddEvent, h]

/-- C10 (witness): adding an Event without a calendar uid raises TypeError. -/
theorem caldav_add_event_no_caluid_witness :
    caldavAddEvent sampleCaldav sampleEventNoCal (fun _ => none)
        = Except.error Exc.typeError
    ∧ Exc.typeError ≠ Exc.domain DomainKind.upload none :=
  ⟨(caldav_add_event_no_caluid sampleCaldav sampleEventNoCal (fun _ => none) rfl).1,
   (caldav_add_event_no_caluid sampleCaldav sampleEventNoCal (fun _ => none) rfl).2 none⟩
